import Mathlib

/-!
Verification of the Time-Travel Photo Booth client: a shallow embedding of
the Edit Request Client (src/services/geminiService.ts), the Encoder
(fileToBase64, src/utils/fileUtils.ts), and the Session Controller
(src/App.tsx), together with proofs of the specified properties.
-/

namespace PhotoBooth

/-- The inline image data carried by a response content part
(`part.inlineData` in the Gemini SDK response). -/
structure InlineData where
  data : String
  mimeType : String
deriving Repr, DecidableEq

/-- One content part of a request or response: it may carry inline image
data and/or text. -/
structure Part where
  inlineData : Option InlineData
  text : Option String
deriving Repr, DecidableEq

/-- The `content` field of a response candidate: an ordered list of parts. -/
structure Content where
  parts : List Part
deriving Repr, DecidableEq

/-- One candidate of a Gemini response. -/
structure Candidate where
  content : Content
deriving Repr, DecidableEq

/-- A Gemini `generateContent` response: a list of candidates; the client
reads `response.candidates[0]`. -/
structure GenResponse where
  candidates : List Candidate
deriving Repr, DecidableEq

/-- The request assembled by `editImage`: model name, the two content
parts (inline image, then text prompt), and the requested response
modalities. -/
structure GenRequest where
  model : String
  parts : List Part
  responseModalities : List String
deriving Repr, DecidableEq

/-- A value rejected by the remote call (network or authorization
failure). `isErrorInstance` records whether the thrown value is an
`Error` instance, `message` its message. -/
structure TransportError where
  message : String
  isErrorInstance : Bool
deriving Repr, DecidableEq

/-- The ways `editImage` can fail: a rejection of the remote call
propagated as it was received, the explicit `Error` thrown when no part
carries image data, or the TypeError raised by reading
`candidates[0].content` when the candidate list is empty. -/
inductive EditError where
  | remoteFailure (e : TransportError)
  | noImageReturned
  | candidatesUndefined
deriving Repr, DecidableEq

/-- Whether the thrown value is an `Error` instance (`err instanceof
Error` in the catch of `handleGenerate`). -/
def editErrorIsError : EditError → Bool
  | .remoteFailure e => e.isErrorInstance
  | .noImageReturned => true
  | .candidatesUndefined => true

/-- The `message` property of the thrown value. -/
def editErrorMessage : EditError → String
  | .remoteFailure e => e.message
  | .noImageReturned => "No image data was found in the Gemini API response."
  | .candidatesUndefined => "Cannot read properties of undefined (reading content)"

/-- The request `editImage` sends: one inline-data part then one text
part, model `gemini-2.5-flash-image`, response modality IMAGE. -/
def mkGenRequest (base64Image mimeType prompt : String) : GenRequest :=
  { model := "gemini-2.5-flash-image"
    parts := [ { inlineData := some { data := base64Image, mimeType := mimeType }, text := none },
               { inlineData := none, text := some prompt } ]
    responseModalities := ["IMAGE"] }

/-- The scan of the `for` loop in `editImage`: the first part of the list
whose `inlineData` field is present. -/
def firstInlineData : List Part → Option InlineData
  | [] => none
  | p :: rest =>
    match p.inlineData with
    | some d => some d
    | none => firstInlineData rest

/-- The function `editImage` from src/services/geminiService.ts. The network is the
parameter `remote`: the function builds the request, performs the single
remote call, and on success scans `response.candidates[0].content.parts`
in order, returning the `inlineData.data` of the first part that has
`inlineData`; if no part does, it throws the no-image `Error`. A
rejection of the remote call itself propagates unmodified. -/
def editImage (remote : GenRequest → Except TransportError GenResponse)
    (base64Image mimeType prompt : String) : Except EditError String :=
  match remote (mkGenRequest base64Image mimeType prompt) with
  | .error e => .error (.remoteFailure e)
  | .ok response =>
    match response.candidates.head? with
    | none => .error .candidatesUndefined
    | some cand =>
      match firstInlineData cand.content.parts with
      | some d => .ok d.data
      | none => .error .noImageReturned

/-- The outcome of the asynchronous `FileReader` read inside
`fileToBase64`: `onload` delivers the data-URL string, `onerror` an
error. -/
inductive ReadOutcome where
  | success (dataUrl : String)
  | failure (err : String)
deriving Repr, DecidableEq

/-- The character-level split underlying the JavaScript string split with
the one-character comma separator: the segments between the commas of the
list, in order. -/
def splitOnCommaAux : List Char → List (List Char)
  | [] => [[]]
  | c :: rest =>
    let r := splitOnCommaAux rest
    if c = ',' then [] :: r
    else (c :: r.headD []) :: r.tail

/-- The JavaScript split of `s` on the comma: the segments of `s` between its commas,
in order; a string with no comma yields the one-element list `[s]`. -/
def jsSplitComma (s : String) : List String :=
  (splitOnCommaAux s.data).map String.mk

/-- The function `fileToBase64` from src/utils/fileUtils.ts, as a function of the
read outcome. On load it takes the component after the first comma of the
data URL (index 1 of the split); a present,
non-empty (truthy) component resolves, otherwise the promise is rejected
with the read-failure `Error`; `onerror` rejects with the error. -/
def fileToBase64 : ReadOutcome → Except String String
  | .failure err => .error err
  | .success result =>
    match (jsSplitComma result)[1]? with
    | some d => if d = "" then .error "Failed to read base64 data from file." else .ok d
    | none => .error "Failed to read base64 data from file."

/-- The `UserImage` type of src/App.tsx. -/
structure UserImage where
  base64 : String
  url : String
  mimeType : String
deriving Repr, DecidableEq

/-- The `Scene` type of src/App.tsx. -/
structure Scene where
  id : String
  name : String
  description : String
  promptFragment : String
  bgColor : String
  textColor : String
deriving Repr, DecidableEq

/-- The fixed catalog of six scene descriptors (`HISTORICAL_SCENES` in
src/App.tsx). -/
def HISTORICAL_SCENES : List Scene :=
  [ { id := "rome", name := "Ancient Rome", description := "The bustling Roman Forum",
      promptFragment := "a scene in the Roman Forum, with classical architecture and citizens in togas",
      bgColor := "bg-amber-800", textColor := "text-amber-100" },
    { id := "dino", name := "Jurassic Era", description := "Amongst the dinosaurs",
      promptFragment := "a lush, prehistoric jungle teeming with dinosaurs like T-Rex and Brontosaurus",
      bgColor := "bg-emerald-800", textColor := "text-emerald-100" },
    { id := "paris", name := "1920s Paris", description := "The Roaring Twenties",
      promptFragment := "a vibrant street scene in 1920s Paris, with flapper dresses, vintage cars, and Art Deco architecture",
      bgColor := "bg-slate-700", textColor := "text-slate-100" },
    { id := "moon", name := "Moon Landing", description := "First steps on the moon",
      promptFragment := "the surface of the moon during the Apollo landing, with the Earth visible in the sky and the lunar module nearby",
      bgColor := "bg-indigo-900", textColor := "text-indigo-100" },
    { id := "viking", name := "Viking Age", description := "Exploring the fjords",
      promptFragment := "a Viking longship sailing through a misty fjord, surrounded by dramatic cliffs and Norse warriors",
      bgColor := "bg-cyan-900", textColor := "text-cyan-100" },
    { id := "future", name := "Cyberpunk City", description := "A neon-lit future",
      promptFragment := "a futuristic cyberpunk city at night, filled with flying vehicles, neon signs, and towering skyscrapers",
      bgColor := "bg-purple-900", textColor := "text-purple-100" } ]

/-- The six pieces of component-local state held by `App`. -/
structure AppState where
  userImage : Option UserImage
  selectedScene : Option Scene
  generatedImage : Option UserImage
  isLoading : Bool
  error : Option String
  isCameraOn : Bool
deriving Repr, DecidableEq

/-- The initial state of `App`: every field absent or false. -/
def initialState : AppState :=
  { userImage := none, selectedScene := none, generatedImage := none,
    isLoading := false, error := none, isCameraOn := false }

/-- The prompt template of `handleGenerate` (src/App.tsx line 118),
interpolating the `promptFragment` of the selected scene. -/
def buildPrompt (scene : Scene) : String :=
  "Take the person in the provided photo and seamlessly place them into a new scene. The scene should be: "
    ++ scene.promptFragment
    ++ ". The final image should look like a vintage photograph, matching the historical era in style, lighting, and color tone."

/-- The text of the prompt template before the interpolated fragment. -/
def promptTemplateHead : String :=
  "Take the person in the provided photo and seamlessly place them into a new scene. The scene should be: "

/-- The text of the prompt template after the interpolated fragment. -/
def promptTemplateTail : String :=
  ". The final image should look like a vintage photograph, matching the historical era in style, lighting, and color tone."

/-- The data the `handleGenerate` closure has captured when it suspends
at `await editImage(...)`: the `userImage` value read before the await,
and the prompt built from the selected scene. -/
structure PendingCall where
  capturedImage : UserImage
  prompt : String
deriving Repr, DecidableEq

/-- The synchronous half of `handleGenerate` before the await
(src/App.tsx lines 109-118): with either input absent it only sets the
validation error message and returns (no call issued); otherwise it sets
`isLoading`, clears `error` and `generatedImage`, builds the prompt and
issues the call. -/
def handleGenerateStart (s : AppState) : AppState × Option PendingCall :=
  match s.userImage, s.selectedScene with
  | some img, some scene =>
    ({ s with isLoading := true, error := none, generatedImage := none },
     some { capturedImage := img, prompt := buildPrompt scene })
  | _, _ =>
    ({ s with error := some "Please provide a photo and select a scene." }, none)

/-- The remote call issued for a pending call: `editImage` applied to the
base64 data and mime type of the captured image and the built prompt. -/
def runPendingCall (remote : GenRequest → Except TransportError GenResponse)
    (c : PendingCall) : Except EditError String :=
  editImage remote c.capturedImage.base64 c.capturedImage.mimeType c.prompt

/-- The continuation of `handleGenerate` after the await (src/App.tsx
lines 120-140), applied to whatever the state is when the call settles.
On success it stores the generated image, taking the mime type from the
captured `userImage` and building the display data URL from it; on
failure it stores the human-readable message; `finally` clears
`isLoading`. -/
def handleGenerateFinish (captured : UserImage) (outcome : Except EditError String)
    (s : AppState) : AppState :=
  match outcome with
  | .ok d =>
    { s with
        generatedImage := some { base64 := d,
                                 url := "data:" ++ captured.mimeType ++ ";base64," ++ d,
                                 mimeType := captured.mimeType },
        isLoading := false }
  | .error e =>
    { s with
        error := some (if editErrorIsError e
                       then "An error occurred: " ++ editErrorMessage e
                       else "An unknown error occurred."),
        isLoading := false }

/-- The whole of `handleGenerate` run without interleaving: the start phase, the
remote call, and the finish phase applied to the post-start state. -/
def handleGenerate (remote : GenRequest → Except TransportError GenResponse)
    (s : AppState) : AppState :=
  match handleGenerateStart s with
  | (s1, none) => s1
  | (s1, some c) => handleGenerateFinish c.capturedImage (runPendingCall remote c) s1

/-- The function `reset` from src/App.tsx lines 143-151: every state field is set back
to its initial value. -/
def reset (_ : AppState) : AppState := initialState

/-- The app state together with whether a camera media stream is live. -/
structure World where
  app : AppState
  streamActive : Bool
deriving Repr, DecidableEq

/-- The cleanup of the camera `useEffect` (src/App.tsx lines 62-67): when
`isCameraOn` changes from true, the effect cleanup stops every track of
the acquired stream. -/
def cameraCleanup (prevCameraOn : Bool) (w : World) : World :=
  if prevCameraOn && !w.app.isCameraOn then { w with streamActive := false } else w

/-- A reset of the whole world: the state fields are cleared and, since
`isCameraOn` becomes false, the camera effect cleanup runs and releases
the stream that was acquired while the camera was on. -/
def resetWorld (w : World) : World :=
  cameraCleanup w.app.isCameraOn { app := reset w.app, streamActive := w.streamActive }

lemma firstInlineData_append_of_none (pre l : List Part)
    (h : ∀ q ∈ pre, q.inlineData = none) :
    firstInlineData (pre ++ l) = firstInlineData l := by
  induction pre with
  | nil => rfl
  | cons p rest ih =>
    have hp : p.inlineData = none := h p (List.mem_cons_self p rest)
    simp only [List.cons_append, firstInlineData, hp]
    exact ih fun q hq => h q (List.mem_cons_of_mem p hq)

lemma firstInlineData_eq_none (l : List Part)
    (h : ∀ q ∈ l, q.inlineData = none) :
    firstInlineData l = none := by
  have := firstInlineData_append_of_none l [] h
  simpa using this

/-- C1: for every remote response whose ordered part list contains an
image-bearing part, `editImage` returns the encoded data of the first
part that carries image data, ignoring any preceding text-only parts and
anything after it. -/
theorem editImage_first_image_part
    (b m p : String) (pre post : List Part) (imgPart : Part) (idata : InlineData)
    (rest : List Candidate)
    (hpre : ∀ q ∈ pre, q.inlineData = none)
    (himg : imgPart.inlineData = some idata) :
    editImage
      (fun _ => .ok { candidates :=
        { content := { parts := pre ++ imgPart :: post } } :: rest })
      b m p = .ok idata.data := by
  simp only [editImage, List.head?]
  rw [firstInlineData_append_of_none pre (imgPart :: post) hpre]
  simp [firstInlineData, himg]

/-- Witness for C1 at the concrete instance given in the spec: the response parts
are a text-only part followed by an image part with data X; the client
returns X. -/
theorem editImage_first_image_part_witness :
    editImage
      (fun _ => .ok { candidates :=
        [ { content := { parts :=
            [ { inlineData := none, text := some "some commentary" },
              { inlineData := some { data := "X", mimeType := "image/png" }, text := none } ] } } ] })
      "b64" "image/png" "prompt" = .ok "X" := by
  have h := editImage_first_image_part "b64" "image/png" "prompt"
    [ { inlineData := none, text := some "some commentary" } ]
    []
    { inlineData := some { data := "X", mimeType := "image/png" }, text := none }
    { data := "X", mimeType := "image/png" }
    []
    (by intro q hq; simp at hq; subst hq; rfl)
    rfl
  simpa using h

/-- C2: a response in which no content part carries image data makes
`editImage` fail with the NoImageReturned error, and a rejection of the
remote call itself is propagated unmodified, not converted to a distinct
error kind. -/
theorem editImage_no_image_and_transport
    (b m p : String) (cand : Candidate) (rest : List Candidate) (e : TransportError)
    (h : ∀ q ∈ cand.content.parts, q.inlineData = none) :
    editImage (fun _ => .ok { candidates := cand :: rest }) b m p
        = .error .noImageReturned
      ∧ editImage (fun _ => .error e) b m p = .error (.remoteFailure e) := by
  constructor
  · simp only [editImage, List.head?]
    rw [firstInlineData_eq_none cand.content.parts h]
  · rfl

/-- Witness for C2: a concrete response with a single text-only part
fails with NoImageReturned, and a concrete transport error is propagated
as it was received. -/
theorem editImage_no_image_and_transport_witness :
    editImage
        (fun _ => .ok { candidates :=
          [ { content := { parts := [ { inlineData := none, text := some "nope" } ] } } ] })
        "b64" "image/jpeg" "prompt" = .error .noImageReturned
      ∧ editImage
        (fun _ => .error { message := "401 Unauthorized", isErrorInstance := true })
        "b64" "image/jpeg" "prompt"
        = .error (.remoteFailure { message := "401 Unauthorized", isErrorInstance := true }) :=
  editImage_no_image_and_transport "b64" "image/jpeg" "prompt"
    { content := { parts := [ { inlineData := none, text := some "nope" } ] } }
    []
    { message := "401 Unauthorized", isErrorInstance := true }
    (by intro q hq; simp at hq; subst hq; rfl)

/-- The message stored by the catch of `handleGenerate` for a thrown
value `e`. -/
def caughtMessage (e : EditError) : String :=
  if editErrorIsError e then "An error occurred: " ++ editErrorMessage e
  else "An unknown error occurred."

lemma caughtMessage_ne_empty (e : EditError) : caughtMessage e ≠ "" := by
  unfold caughtMessage
  split
  · intro hc
    have hl := congrArg String.length hc
    rw [String.length_append] at hl
    have h0 : ("An error occurred: " : String).length = 19 := rfl
    have h1 : ("" : String).length = 0 := rfl
    rw [h0, h1] at hl
    omega
  · decide

/-- A concrete uploaded photo used to instantiate the generate-cycle
theorems. -/
def wPhoto : UserImage :=
  { base64 := "UEhPVE8=", url := "blob:photo", mimeType := "image/png" }

/-- A second concrete uploaded photo with a different mime type. -/
def wPhoto2 : UserImage :=
  { base64 := "QU5PVEhFUg==", url := "blob:photo2", mimeType := "image/jpeg" }

/-- The Ancient Rome scene descriptor (the first catalog entry). -/
def wScene : Scene :=
  { id := "rome", name := "Ancient Rome", description := "The bustling Roman Forum",
    promptFragment := "a scene in the Roman Forum, with classical architecture and citizens in togas",
    bgColor := "bg-amber-800", textColor := "text-amber-100" }

/-- A concrete state with a photo uploaded and Ancient Rome selected. -/
def wReady : AppState :=
  { initialState with userImage := some wPhoto, selectedScene := some wScene }

/-- A second concrete ready state, with the other photo and the same
scene. -/
def wReady2 : AppState :=
  { initialState with userImage := some wPhoto2, selectedScene := some wScene }

/-- C3: when `currentPhoto` or `selectedScene` is absent, the generate
action only sets the validation error message: every other field is
unchanged (so `result` stays unset and `pending` stays false) and no
call is issued. -/
theorem generate_missing_input_noop
    (s : AppState)
    (h : s.userImage = none ∨ s.selectedScene = none)
    (hres : s.generatedImage = none) (hpend : s.isLoading = false) :
    handleGenerateStart s
        = ({ s with error := some "Please provide a photo and select a scene." }, none)
      ∧ (handleGenerateStart s).1.generatedImage = none
      ∧ (handleGenerateStart s).1.isLoading = false := by
  have hmain : handleGenerateStart s
      = ({ s with error := some "Please provide a photo and select a scene." }, none) := by
    rcases h with h | h
    · cases hsc : s.selectedScene <;> simp [handleGenerateStart, h, hsc]
    · cases hu : s.userImage <;> simp [handleGenerateStart, h, hu]
  exact ⟨hmain, by rw [hmain]; exact hres, by rw [hmain]; exact hpend⟩

/-- Witness for C3: in the initial state (no photo), generate sets only
the validation error and issues no call. -/
theorem generate_missing_input_noop_witness :
    handleGenerateStart initialState
        = ({ initialState with error := some "Please provide a photo and select a scene." }, none)
      ∧ (handleGenerateStart initialState).1.generatedImage = none
      ∧ (handleGenerateStart initialState).1.isLoading = false :=
  generate_missing_input_noop initialState (Or.inl rfl) rfl rfl

/-- C4: with a photo and a scene present, generate enters Pending
(`isLoading` true, `error` and `generatedImage` cleared) and issues the
call; when the call resolves with data Q, the finish phase stores the
result with `base64 = Q` and clears `isLoading`. -/
theorem generate_success_transition
    (s : AppState) (P : UserImage) (sc : Scene) (Q : String)
    (hP : s.userImage = some P) (hsc : s.selectedScene = some sc) :
    (handleGenerateStart s).1.isLoading = true
      ∧ (handleGenerateStart s).1.error = none
      ∧ (handleGenerateStart s).1.generatedImage = none
      ∧ (handleGenerateStart s).2 = some { capturedImage := P, prompt := buildPrompt sc }
      ∧ (handleGenerateFinish P (.ok Q) (handleGenerateStart s).1).generatedImage
          = some { base64 := Q, url := "data:" ++ P.mimeType ++ ";base64," ++ Q,
                   mimeType := P.mimeType }
      ∧ (handleGenerateFinish P (.ok Q) (handleGenerateStart s).1).isLoading = false := by
  simp [handleGenerateStart, handleGenerateFinish, hP, hsc]

/-- Witness for C4: photo uploaded, Ancient Rome selected, remote
resolves with QQ. -/
theorem generate_success_transition_witness :
    (handleGenerateStart wReady).1.isLoading = true
      ∧ (handleGenerateStart wReady).1.error = none
      ∧ (handleGenerateStart wReady).1.generatedImage = none
      ∧ (handleGenerateStart wReady).2 = some { capturedImage := wPhoto, prompt := buildPrompt wScene }
      ∧ (handleGenerateFinish wPhoto (.ok "QQ") (handleGenerateStart wReady).1).generatedImage
          = some { base64 := "QQ", url := "data:" ++ wPhoto.mimeType ++ ";base64," ++ "QQ",
                   mimeType := wPhoto.mimeType }
      ∧ (handleGenerateFinish wPhoto (.ok "QQ") (handleGenerateStart wReady).1).isLoading = false :=
  generate_success_transition wReady wPhoto wScene "QQ" rfl rfl

/-- C5: when the issued call rejects, the finish phase stores a
non-empty error message, leaves `generatedImage` unset, clears
`isLoading`, and a subsequent reset returns to the initial state. -/
theorem generate_failure_transition
    (s : AppState) (P : UserImage) (sc : Scene) (e : EditError)
    (hP : s.userImage = some P) (hsc : s.selectedScene = some sc) :
    (handleGenerateFinish P (.error e) (handleGenerateStart s).1).error = some (caughtMessage e)
      ∧ caughtMessage e ≠ ""
      ∧ (handleGenerateFinish P (.error e) (handleGenerateStart s).1).generatedImage = none
      ∧ (handleGenerateFinish P (.error e) (handleGenerateStart s).1).isLoading = false
      ∧ reset (handleGenerateFinish P (.error e) (handleGenerateStart s).1) = initialState := by
  refine ⟨?_, caughtMessage_ne_empty e, ?_, ?_, rfl⟩ <;>
    simp [handleGenerateStart, handleGenerateFinish, caughtMessage, hP, hsc]

/-- Witness for C5: the concrete ready state whose call rejects with the
no-image error. -/
theorem generate_failure_transition_witness :
    (handleGenerateFinish wPhoto (.error .noImageReturned) (handleGenerateStart wReady).1).error
        = some (caughtMessage .noImageReturned)
      ∧ caughtMessage .noImageReturned ≠ ""
      ∧ (handleGenerateFinish wPhoto (.error .noImageReturned) (handleGenerateStart wReady).1).generatedImage = none
      ∧ (handleGenerateFinish wPhoto (.error .noImageReturned) (handleGenerateStart wReady).1).isLoading = false
      ∧ reset (handleGenerateFinish wPhoto (.error .noImageReturned) (handleGenerateStart wReady).1)
          = initialState :=
  generate_failure_transition wReady wPhoto wScene .noImageReturned rfl rfl

/-- C6, failing input evaluated: generate is started from the ready
state, the user resets while the call is in flight, and the call then
resolves with stale data; the continuation applies the stale response to
the post-reset state, so `generatedImage` is populated although
`userImage` and `selectedScene` are absent. -/
theorem stale_response_applied_after_reset :
    (handleGenerateFinish wPhoto (.ok "STALE") (reset (handleGenerateStart wReady).1)).generatedImage
        = some { base64 := "STALE", url := "data:image/png;base64,STALE", mimeType := "image/png" }
      ∧ (handleGenerateFinish wPhoto (.ok "STALE") (reset (handleGenerateStart wReady).1)).userImage
        = none
      ∧ (handleGenerateFinish wPhoto (.ok "STALE") (reset (handleGenerateStart wReady).1)).selectedScene
        = none := by
  refine ⟨?_, rfl, rfl⟩
  simp [handleGenerateFinish, reset, wPhoto, initialState]

/-- C7: from any world whose live stream was acquired with the camera on,
reset clears every session field — photo, scene, result, loading flag,
error, camera flag — returning to the initial state, and the camera
effect cleanup releases the stream. -/
theorem reset_clears_everything (w : World)
    (h : w.streamActive = true → w.app.isCameraOn = true) :
    (resetWorld w).app.userImage = none
      ∧ (resetWorld w).app.selectedScene = none
      ∧ (resetWorld w).app.generatedImage = none
      ∧ (resetWorld w).app.isLoading = false
      ∧ (resetWorld w).app.error = none
      ∧ (resetWorld w).app.isCameraOn = false
      ∧ (resetWorld w).app = initialState
      ∧ (resetWorld w).streamActive = false := by
  have hstream : (resetWorld w).streamActive = false := by
    cases hcam : w.app.isCameraOn with
    | true => simp [resetWorld, cameraCleanup, reset, hcam, initialState]
    | false =>
      have hs : w.streamActive = false := by
        cases hsa : w.streamActive
        · rfl
        · rw [hcam] at h; exact absurd (h hsa) (by decide)
      simp [resetWorld, cameraCleanup, reset, hcam, hs, initialState]
  have happ : (resetWorld w).app = initialState := by
    unfold resetWorld cameraCleanup
    split <;> rfl
  rw [happ, hstream]
  exact ⟨rfl, rfl, rfl, rfl, rfl, rfl, rfl, rfl⟩

/-- A concrete world with a photo loaded, the camera on and a live
stream. -/
def wCameraWorld : World :=
  { app := { initialState with userImage := some wPhoto, isCameraOn := true },
    streamActive := true }

/-- Witness for C7: a world with a photo loaded, the camera on and its
stream live is fully cleared by reset. -/
theorem reset_clears_everything_witness :
    (resetWorld wCameraWorld).app.userImage = none
      ∧ (resetWorld wCameraWorld).app.selectedScene = none
      ∧ (resetWorld wCameraWorld).app.generatedImage = none
      ∧ (resetWorld wCameraWorld).app.isLoading = false
      ∧ (resetWorld wCameraWorld).app.error = none
      ∧ (resetWorld wCameraWorld).app.isCameraOn = false
      ∧ (resetWorld wCameraWorld).app = initialState
      ∧ (resetWorld wCameraWorld).streamActive = false :=
  reset_clears_everything wCameraWorld (fun _ => rfl)

/-- C8: the instruction text issued with a generate action is the fixed
template with the `promptFragment` of the selected scene interpolated, and it
depends only on the scene: two generate actions from any two states with
the same selected scene produce identical prompts. -/
theorem prompt_deterministic
    (s t : AppState) (P P2 : UserImage) (sc : Scene) (c c2 : PendingCall)
    (hP : s.userImage = some P) (hsc : s.selectedScene = some sc)
    (hP2 : t.userImage = some P2) (hsc2 : t.selectedScene = some sc)
    (hc : (handleGenerateStart s).2 = some c)
    (hc2 : (handleGenerateStart t).2 = some c2) :
    c.prompt = promptTemplateHead ++ sc.promptFragment ++ promptTemplateTail
      ∧ c2.prompt = c.prompt := by
  have h1 : (handleGenerateStart s).2 = some { capturedImage := P, prompt := buildPrompt sc } := by
    simp [handleGenerateStart, hP, hsc]
  have h2 : (handleGenerateStart t).2 = some { capturedImage := P2, prompt := buildPrompt sc } := by
    simp [handleGenerateStart, hP2, hsc2]
  rw [h1] at hc
  rw [h2] at hc2
  have e1 := Option.some.inj hc
  have e2 := Option.some.inj hc2
  rw [← e1, ← e2]
  exact ⟨rfl, rfl⟩

/-- Witness for C8: the two concrete ready states sharing the Ancient
Rome scene but holding different photos produce the same prompt, equal
to the template around the Rome fragment. -/
theorem prompt_deterministic_witness :
    ({ capturedImage := wPhoto, prompt := buildPrompt wScene } : PendingCall).prompt
        = promptTemplateHead ++ wScene.promptFragment ++ promptTemplateTail
      ∧ ({ capturedImage := wPhoto2, prompt := buildPrompt wScene } : PendingCall).prompt
        = ({ capturedImage := wPhoto, prompt := buildPrompt wScene } : PendingCall).prompt :=
  prompt_deterministic wReady wReady2 wPhoto wPhoto2 wScene
    { capturedImage := wPhoto, prompt := buildPrompt wScene }
    { capturedImage := wPhoto2, prompt := buildPrompt wScene }
    rfl rfl rfl rfl rfl rfl

/-- C9: when the call succeeds, the stored result takes its media type
from the captured `userImage` that was sent — not from the mime type the
response reports — and its display reference is the data URL built from
that media type and the returned data. -/
theorem result_media_type_from_request
    (P : UserImage) (prompt Q M : String) (pre post : List Part) (rest : List Candidate)
    (s1 : AppState)
    (hpre : ∀ q ∈ pre, q.inlineData = none) :
    (handleGenerateFinish P
      (editImage
        (fun _ => .ok { candidates :=
          { content := { parts :=
              pre ++ { inlineData := some { data := Q, mimeType := M }, text := none } :: post } }
            :: rest })
        P.base64 P.mimeType prompt)
      s1).generatedImage
      = some { base64 := Q, url := "data:" ++ P.mimeType ++ ";base64," ++ Q,
               mimeType := P.mimeType } := by
  have hed : editImage
      (fun _ => .ok { candidates :=
        { content := { parts :=
            pre ++ { inlineData := some { data := Q, mimeType := M }, text := none } :: post } }
          :: rest })
      P.base64 P.mimeType prompt = .ok Q := by
    simp only [editImage, List.head?]
    rw [firstInlineData_append_of_none pre _ hpre]
    simp [firstInlineData]
  rw [hed]
  rfl

/-- Witness for C9: the response reports mime type image/webp, yet the
stored result carries the image/png of the request photo and a data URL built
from it. -/
theorem result_media_type_from_request_witness :
    (handleGenerateFinish wPhoto
      (editImage
        (fun _ => .ok { candidates :=
          [ { content := { parts :=
              [ { inlineData := some { data := "QDATA", mimeType := "image/webp" },
                  text := none } ] } } ] })
        wPhoto.base64 wPhoto.mimeType "p")
      initialState).generatedImage
      = some { base64 := "QDATA", url := "data:" ++ wPhoto.mimeType ++ ";base64," ++ "QDATA",
               mimeType := wPhoto.mimeType } :=
  result_media_type_from_request wPhoto "p" "QDATA" "image/webp" [] [] [] initialState
    (fun q hq => absurd hq (List.not_mem_nil q))

/-- C10: `fileToBase64` never resolves with an empty payload — whenever
it resolves, the payload is non-empty — and when the read result lacks a
base64 component after the data-URL comma (no comma, or nothing after
it), the promise is rejected with the read-failure error. -/
theorem fileToBase64_never_empty
    (o : ReadOutcome) (d : String) (result : String)
    (hok : fileToBase64 o = .ok d)
    (hmiss : (jsSplitComma result)[1]? = none ∨ (jsSplitComma result)[1]? = some "") :
    d ≠ ""
      ∧ fileToBase64 (.success result) = .error "Failed to read base64 data from file." := by
  constructor
  · cases o with
    | failure err => exact absurd hok (by simp [fileToBase64])
    | success r =>
      simp only [fileToBase64] at hok
      cases hsplit : (jsSplitComma r)[1]? with
      | none => rw [hsplit] at hok; exact absurd hok (by simp)
      | some x =>
        rw [hsplit] at hok
        have hok2 : (if x = "" then (Except.error "Failed to read base64 data from file." : Except String String) else Except.ok x) = Except.ok d := hok
        by_cases hx : x = ""
        · rw [if_pos hx] at hok2
          exact absurd hok2 (by simp)
        · rw [if_neg hx] at hok2
          have hxd := Except.ok.inj hok2
          rw [← hxd]
          exact hx
  · rcases hmiss with h | h <;> simp [fileToBase64, h]

/-- Witness for C10: a well-formed data URL resolves with the non-empty
payload after its comma, and a read result with no comma is rejected. -/
theorem fileToBase64_never_empty_witness :
    ("QUJD" : String) ≠ ""
      ∧ fileToBase64 (.success "nocomma") = .error "Failed to read base64 data from file." :=
  fileToBase64_never_empty (.success "data:image/png;base64,QUJD") "QUJD" "nocomma"
    (by rfl) (Or.inl (by rfl))

end PhotoBooth
